import Mathlib

/-
Verification of the `sensor_msgs/msg/Image` MCAP schema plugin
(`crates/store/re_data_loader/src/mcap/schema/sensor_msgs/image.rs`).

The development shallowly embeds the parser: the format resolver
`decode_image_format`, the per-channel accumulator `ImageMessageParser`
with its `append`/`finalize` state machine, and the parser context that
collects time cells.  Types owned by external crates (`re_types`
descriptors, `re_chunk` chunk construction, the CDR decoder) are modelled
from the specification, as marked in their doc comments.
-/

namespace RerunImage

/-- Color models of the external `re_types` crate that the resolver uses
(`L` is grayscale). -/
inductive ColorModel where
  | L
  | RGB
  | RGBA
  | BGR
  | BGRA
deriving DecidableEq, Repr

/-- Channel datatypes of the external `re_types` crate used by the resolver. -/
inductive ChannelDatatype where
  | U8
  | I8
  | U16
  | I16
  | U32
  | I32
  | F32
  | F64
deriving DecidableEq, Repr

/-- Packed/sub-sampled pixel formats used by the resolver. -/
inductive PixelFormat where
  | NV12
  | YUY2
deriving DecidableEq, Repr

/-- Modelled from the spec: the Pixel-Format Descriptor (§3) of the external
`re_types` crate — dimensions plus one of a color-model/datatype pair, a
packed pixel-format tag, or a datatype alone for depth layouts.  The presence
of a color model is the sole color-vs-depth signal. -/
structure ImageFormat where
  width : Nat
  height : Nat
  pixel_format : Option PixelFormat
  color_model : Option ColorModel
  channel_datatype : Option ChannelDatatype
deriving DecidableEq, Repr

/-- Modelled from the spec: `ImageFormat::from_color_model` of the external
`re_types` crate — an interleaved color layout with the given model and
channel datatype (§3, §4.3).  Dimensions are passed as `(width, height)`. -/
def ImageFormat.from_color_model (dimensions : Nat × Nat) (cm : ColorModel)
    (dt : ChannelDatatype) : ImageFormat :=
  { width := dimensions.1
    height := dimensions.2
    pixel_format := none
    color_model := some cm
    channel_datatype := some dt }

/-- Modelled from the spec: `ImageFormat::from_pixel_format` of the external
`re_types` crate — a packed pixel-format tag, no color model (§3, §4.3). -/
def ImageFormat.from_pixel_format (dimensions : Nat × Nat) (pf : PixelFormat) :
    ImageFormat :=
  { width := dimensions.1
    height := dimensions.2
    pixel_format := some pf
    color_model := none
    channel_datatype := none }

/-- Modelled from the spec: `ImageFormat::depth` of the external `re_types`
crate — a single-channel depth layout with a channel datatype alone and no
color model (§3, §4.3). -/
def ImageFormat.depth (dimensions : Nat × Nat) (dt : ChannelDatatype) :
    ImageFormat :=
  { width := dimensions.1
    height := dimensions.2
    pixel_format := none
    color_model := none
    channel_datatype := some dt }

/-- Modelled from the spec: `ImageFormat::rgb8` — RGB color, 8-bit channel
(§4.3 table). -/
def ImageFormat.rgb8 (dimensions : Nat × Nat) : ImageFormat :=
  ImageFormat.from_color_model dimensions ColorModel.RGB ChannelDatatype.U8

/-- Modelled from the spec: `ImageFormat::rgba8` — RGBA color, 8-bit channel
(§4.3 table). -/
def ImageFormat.rgba8 (dimensions : Nat × Nat) : ImageFormat :=
  ImageFormat.from_color_model dimensions ColorModel.RGBA ChannelDatatype.U8

/-- The error produced for an encoding outside the fixed vocabulary; the Rust
code bails with an `anyhow` message embedding the encoding string, so the
error carries that string. -/
structure UnsupportedFormatError where
  encoding : String
deriving DecidableEq, Repr

/-- The table-driven format resolver, embedding `decode_image_format` from
`image.rs` lines 195-259.  Case-sensitive exact match; any other string is an
error carrying the encoding. -/
def decode_image_format (encoding : String) (dimensions : Nat × Nat) :
    Except UnsupportedFormatError ImageFormat :=
  match encoding with
  | "rgb8" => .ok (ImageFormat.rgb8 dimensions)
  | "rgba8" => .ok (ImageFormat.rgba8 dimensions)
  | "rgb16" => .ok (ImageFormat.from_color_model dimensions ColorModel.RGB ChannelDatatype.U16)
  | "rgba16" => .ok (ImageFormat.from_color_model dimensions ColorModel.RGBA ChannelDatatype.U16)
  | "bgr8" => .ok (ImageFormat.from_color_model dimensions ColorModel.BGR ChannelDatatype.U8)
  | "bgra8" => .ok (ImageFormat.from_color_model dimensions ColorModel.BGRA ChannelDatatype.U8)
  | "bgr16" => .ok (ImageFormat.from_color_model dimensions ColorModel.BGR ChannelDatatype.U16)
  | "bgra16" => .ok (ImageFormat.from_color_model dimensions ColorModel.BGRA ChannelDatatype.U16)
  | "mono8" => .ok (ImageFormat.from_color_model dimensions ColorModel.L ChannelDatatype.U8)
  | "mono16" => .ok (ImageFormat.from_color_model dimensions ColorModel.L ChannelDatatype.U16)
  | "yuyv" => .ok (ImageFormat.from_pixel_format dimensions PixelFormat.YUY2)
  | "yuv422_yuy2" => .ok (ImageFormat.from_pixel_format dimensions PixelFormat.YUY2)
  | "nv12" => .ok (ImageFormat.from_pixel_format dimensions PixelFormat.NV12)
  | "8UC1" => .ok (ImageFormat.depth dimensions ChannelDatatype.U8)
  | "8SC1" => .ok (ImageFormat.depth dimensions ChannelDatatype.I8)
  | "16UC1" => .ok (ImageFormat.depth dimensions ChannelDatatype.U16)
  | "16SC1" => .ok (ImageFormat.depth dimensions ChannelDatatype.I16)
  | "32SC1" => .ok (ImageFormat.depth dimensions ChannelDatatype.I32)
  | "32FC1" => .ok (ImageFormat.depth dimensions ChannelDatatype.F32)
  | format => .error { encoding := format }

/-- The fixed encoding vocabulary of the §4.3 table. -/
def supportedEncodings : List String :=
  ["rgb8", "rgba8", "rgb16", "rgba16", "bgr8", "bgra8", "bgr16", "bgra16",
   "mono8", "mono16", "yuyv", "yuv422_yuy2", "nv12",
   "8UC1", "8SC1", "16UC1", "16SC1", "32SC1", "32FC1"]

/-- A decoded `sensor_msgs/msg/Image` frame record: the fields the parser
destructures from the CDR payload (`image.rs` lines 70-78).  The header stamp
is kept as nanoseconds since epoch, which is what `header.stamp.as_nanos()`
produces; the pixel payload is the owned byte buffer. -/
structure ImageMsg where
  stamp_nanos : Int
  height : Nat
  width : Nat
  encoding : String
  is_bigendian : Bool
  step : Nat
  data : List Nat
deriving DecidableEq, Repr

/-- A raw MCAP message as seen by `append`: its CDR payload either decodes to
a frame record or is malformed. -/
inductive RawMessage where
  | malformed
  | wellFormed (msg : ImageMsg)
deriving DecidableEq, Repr

/-- Errors surfaced by `append`: a CDR decode failure or an unsupported
encoding. -/
inductive AppendError where
  | decodeError
  | unsupportedFormat (err : UnsupportedFormatError)
deriving DecidableEq, Repr

/-- Modelled from the spec: `cdr::try_decode_message` (§4.2 Frame Decoder) is
external to `src/`; it deserializes a raw payload into a frame record or
fails with a `DecodeError` on a malformed payload.  The embedding carries the
decode outcome in the raw message itself. -/
def try_decode_message : RawMessage → Except AppendError ImageMsg
  | RawMessage.malformed => .error AppendError.decodeError
  | RawMessage.wellFormed m => .ok m

/-- The parser context collaborator: the entity path of the channel and the
time cells registered through `add_time_cell`, in call order. -/
structure ParserContext where
  entity_path : String
  time_cells : List (String × Int)
deriving DecidableEq, Repr

/-- A fresh context with no time cells. -/
def ParserContext.new (entity_path : String) : ParserContext :=
  { entity_path := entity_path, time_cells := [] }

/-- `ctx.add_time_cell(timeline, cell)`: records one time cell under the
named timeline. -/
def ParserContext.add_time_cell (ctx : ParserContext) (timeline : String)
    (t : Int) : ParserContext :=
  { ctx with time_cells := ctx.time_cells ++ [(timeline, t)] }

/-- `ctx.build_timelines()`: the finished timeline index, read at finalize
time.  Modelled as the ordered list of registered cells. -/
def ParserContext.build_timelines (ctx : ParserContext) : List (String × Int) :=
  ctx.time_cells

/-- The per-channel accumulator state of `ImageMessageParser` (`image.rs`
lines 35-47): the blob and format collections, the five metadata column
builders (each a size-1 fixed-size-list builder, modelled as the list of its
appended values; `is_bigendian` is widened to `u32` on append), and the
channel classification flag. -/
structure ImageMessageParser where
  blobs : List (List Nat)
  image_formats : List ImageFormat
  height : List Nat
  width : List Nat
  encoding : List String
  is_bigendian : List Nat
  step : List Nat
  is_depth_image : Bool
deriving DecidableEq, Repr

/-- `ImageMessageParser::new(num_rows)`: empty collections (the row-count
argument is only a capacity hint) and `is_depth_image = false`. -/
def ImageMessageParser.new (_num_rows : Nat) : ImageMessageParser :=
  { blobs := []
    image_formats := []
    height := []
    width := []
    encoding := []
    is_bigendian := []
    step := []
    is_depth_image := false }

/-- `ImageMessageParser::append` (`image.rs` lines 67-114): decode the CDR
payload; register the sensor timestamp under the `"timestamp"` timeline;
resolve the image format; record the depth classification; then push one
value to every collection and builder in lockstep.  The Rust method mutates
`self` and `ctx` in place, so the embedding always returns the resulting
parser and context alongside the outcome. -/
def ImageMessageParser.append (p : ImageMessageParser) (ctx : ParserContext)
    (msg : RawMessage) :
    Except AppendError Unit × ImageMessageParser × ParserContext :=
  match try_decode_message msg with
  | .error e => (.error e, p, ctx)
  | .ok m =>
    let ctx := ctx.add_time_cell "timestamp" m.stamp_nanos
    match decode_image_format m.encoding (m.width, m.height) with
    | .error e => (.error (AppendError.unsupportedFormat e), p, ctx)
    | .ok img_format =>
      let p :=
        { p with
          is_depth_image := img_format.color_model.isNone
          blobs := p.blobs ++ [m.data]
          image_formats := p.image_formats ++ [img_format]
          height := p.height ++ [m.height]
          width := p.width ++ [m.width]
          encoding := p.encoding ++ [m.encoding]
          is_bigendian := p.is_bigendian ++ [if m.is_bigendian then 1 else 0]
          step := p.step ++ [m.step] }
      (.ok (), p, ctx)

/-- Feed a sequence of raw messages to the parser one at a time, stopping at
the first failing `append` (whose error is propagated to the caller). -/
def appendAll (p : ImageMessageParser) (ctx : ParserContext) :
    List RawMessage →
    Except AppendError Unit × ImageMessageParser × ParserContext
  | [] => (.ok (), p, ctx)
  | m :: rest =>
    match p.append ctx m with
    | (.ok _, p1, ctx1) => appendAll p1 ctx1 rest
    | (.error e, p1, ctx1) => (.error e, p1, ctx1)

/-- `ImageMessageParser::ARCHETYPE_NAME` (`image.rs` line 50). -/
def ARCHETYPE_NAME : String := "sensor_msgs.msg.Image"

/-- Which image archetype the accumulated batch is emitted under:
`Image` (color) or `DepthImage`. -/
inductive ImageArchetype where
  | color
  | depth
deriving DecidableEq, Repr

/-- Error raised by chunk construction when column lengths are inconsistent
(the spec's `BatchConstructionError`, §4.5). -/
inductive BatchConstructionError where
  | lengthMismatch
deriving DecidableEq, Repr

/-- The distinct timeline names appearing among a list of time cells. -/
def timelineNames (cells : List (String × Int)) : List String :=
  (cells.map Prod.fst).dedup

/-- Chunk sanity: every timeline column has exactly `n` cells, one per row. -/
def timelineLenOk (cells : List (String × Int)) (n : Nat) : Bool :=
  (timelineNames cells).all fun name =>
    (cells.filter fun c => c.1 == name).length == n

/-- The single-column image output batch: blob/format pairs tagged with the
channel-decided color-or-depth archetype, sharing the timeline index. -/
structure ImageChunk where
  entity_path : String
  timelines : List (String × Int)
  archetype : ImageArchetype
  buffers : List (List Nat)
  formats : List ImageFormat
deriving DecidableEq, Repr

/-- Number of rows of the image batch. -/
def ImageChunk.num_rows (c : ImageChunk) : Nat :=
  c.buffers.length

/-- One finished metadata column, tagged with its component name and its
owning archetype name. -/
structure MetadataColumn (α : Type) where
  component : String
  archetype : String
  values : List α
deriving DecidableEq, Repr

/-- The five-column metadata output batch. -/
structure MetadataChunk where
  entity_path : String
  timelines : List (String × Int)
  height : MetadataColumn Nat
  width : MetadataColumn Nat
  encoding : MetadataColumn String
  is_bigendian : MetadataColumn Nat
  step : MetadataColumn Nat
deriving DecidableEq, Repr

/-- Number of rows of the metadata batch. -/
def MetadataChunk.num_rows (c : MetadataChunk) : Nat :=
  c.height.values.length

/-- Modelled from the spec: `Chunk::from_auto_row_ids` for the image batch
(§4.5 Chunk Emitter) lives in the external `re_chunk` crate.  It fails with a
`BatchConstructionError` when component column lengths mismatch each other or
the timeline length; otherwise it assembles the immutable batch. -/
def mk_image_chunk (entity_path : String) (timelines : List (String × Int))
    (archetype : ImageArchetype) (buffers : List (List Nat))
    (formats : List ImageFormat) : Except BatchConstructionError ImageChunk :=
  if formats.length = buffers.length ∧ timelineLenOk timelines buffers.length then
    .ok { entity_path := entity_path
          timelines := timelines
          archetype := archetype
          buffers := buffers
          formats := formats }
  else
    .error BatchConstructionError.lengthMismatch

/-- Modelled from the spec: `Chunk::from_auto_row_ids` for the metadata batch
(§4.5 Chunk Emitter), external to `src/`.  Each finished column is tagged
with the fixed archetype name; construction fails when the five column
lengths disagree with each other or with the timeline length. -/
def mk_metadata_chunk (entity_path : String) (timelines : List (String × Int))
    (hs ws : List Nat) (encs : List String) (bes ss : List Nat) :
    Except BatchConstructionError MetadataChunk :=
  if (ws.length = hs.length ∧ encs.length = hs.length ∧
      bes.length = hs.length ∧ ss.length = hs.length) ∧
      timelineLenOk timelines hs.length then
    .ok { entity_path := entity_path
          timelines := timelines
          height := { component := "height", archetype := ARCHETYPE_NAME, values := hs }
          width := { component := "width", archetype := ARCHETYPE_NAME, values := ws }
          encoding := { component := "encoding", archetype := ARCHETYPE_NAME, values := encs }
          is_bigendian := { component := "is_bigendian", archetype := ARCHETYPE_NAME, values := bes }
          step := { component := "step", archetype := ARCHETYPE_NAME, values := ss } }
  else
    .error BatchConstructionError.lengthMismatch

/-- `ImageMessageParser::finalize` (`image.rs` lines 116-192): read the
entity path and the host-built timeline index from the context; emit the
image batch under the depth archetype when `is_depth_image` is set and under
the color archetype otherwise; emit the metadata batch from the five finished
columns; return both. -/
def ImageMessageParser.finalize (p : ImageMessageParser) (ctx : ParserContext) :
    Except BatchConstructionError (ImageChunk × MetadataChunk) :=
  match mk_image_chunk ctx.entity_path ctx.build_timelines
      (if p.is_depth_image then ImageArchetype.depth else ImageArchetype.color)
      p.blobs p.image_formats with
  | .error e => .error e
  | .ok image_chunk =>
    match mk_metadata_chunk ctx.entity_path ctx.build_timelines
        p.height p.width p.encoding p.is_bigendian p.step with
    | .error e => .error e
    | .ok metadata_chunk => .ok (image_chunk, metadata_chunk)

/-- The length invariant of §3: all seven per-channel collections and
builders hold exactly `n` values. -/
def lengthsEq (p : ImageMessageParser) (n : Nat) : Prop :=
  p.blobs.length = n ∧ p.image_formats.length = n ∧ p.height.length = n ∧
  p.width.length = n ∧ p.encoding.length = n ∧ p.is_bigendian.length = n ∧
  p.step.length = n

/-- Context shape after `n` accepted frames starting from a fresh context:
`n` time cells, all registered under the `"timestamp"` timeline. -/
def ctxCells (ctx : ParserContext) (n : Nat) : Prop :=
  ctx.time_cells.length = n ∧ ∀ c ∈ ctx.time_cells, c.1 = "timestamp"

/-- The pixel payload carried by a raw message (empty for a malformed one,
which never reaches the accumulator). -/
def rawData : RawMessage → List Nat
  | RawMessage.malformed => []
  | RawMessage.wellFormed m => m.data

/-- A concrete color frame (`"rgb8"`, 4x2) used by the witnesses. -/
def exColorMsg : ImageMsg :=
  { stamp_nanos := 10, height := 2, width := 4, encoding := "rgb8",
    is_bigendian := false, step := 12, data := [0, 1, 2, 3] }

/-- A concrete depth frame (`"32FC1"`, 4x2) used by the witnesses. -/
def exDepthMsg : ImageMsg :=
  { stamp_nanos := 20, height := 2, width := 4, encoding := "32FC1",
    is_bigendian := false, step := 16, data := [9, 9] }

/-- A concrete frame with an unsupported encoding, used by the witnesses. -/
def exBadMsg : ImageMsg :=
  { stamp_nanos := 30, height := 2, width := 4, encoding := "weird",
    is_bigendian := true, step := 12, data := [7] }

/-- The parser state after two accepted frames, used by the witnesses. -/
def exParser2 : ImageMessageParser :=
  (appendAll (ImageMessageParser.new 0) (ParserContext.new "cam")
    [RawMessage.wellFormed exColorMsg,
     RawMessage.wellFormed exColorMsg]).2.1

/-- The context after two accepted frames, used by the witnesses. -/
def exCtx2 : ParserContext :=
  (appendAll (ImageMessageParser.new 0) (ParserContext.new "cam")
    [RawMessage.wellFormed exColorMsg,
     RawMessage.wellFormed exColorMsg]).2.2

/-- A color frame followed by a depth frame: the mixed-channel scenario used
by the witnesses. -/
def exMsgsCD : List RawMessage :=
  [RawMessage.wellFormed exColorMsg, RawMessage.wellFormed exDepthMsg]

/-- The run of the mixed-channel scenario from a fresh parser and context. -/
def exRunCD : Except AppendError Unit × ImageMessageParser × ParserContext :=
  appendAll (ImageMessageParser.new 0) (ParserContext.new "cam") exMsgsCD

/-- The image batch finalized from the mixed-channel scenario. -/
def exIcCD : ImageChunk :=
  match exRunCD.2.1.finalize exRunCD.2.2 with
  | .ok (ic, _) => ic
  | .error _ =>
    { entity_path := "", timelines := [], archetype := ImageArchetype.color,
      buffers := [], formats := [] }

/-- The metadata batch finalized from the mixed-channel scenario. -/
def exMcCD : MetadataChunk :=
  match exRunCD.2.1.finalize exRunCD.2.2 with
  | .ok (_, mc) => mc
  | .error _ =>
    { entity_path := "", timelines := [],
      height := { component := "height", archetype := ARCHETYPE_NAME, values := [] },
      width := { component := "width", archetype := ARCHETYPE_NAME, values := [] },
      encoding := { component := "encoding", archetype := ARCHETYPE_NAME, values := [] },
      is_bigendian := { component := "is_bigendian", archetype := ARCHETYPE_NAME, values := [] },
      step := { component := "step", archetype := ARCHETYPE_NAME, values := [] } }

/-- C1: for every encoding string in the §4.3 table and any dimensions, the
format resolver returns exactly the descriptor shown in the table; in
particular `"rgb8"` with width 4, height 2 yields a color descriptor with
model RGB, 8-bit channel and dimensions (4,2), and `"32FC1"` yields a depth
descriptor with a 32-bit float channel datatype and no color model. -/
theorem C1_resolve_table (w h : Nat) :
    decode_image_format "rgb8" (w, h) = .ok
      { width := w, height := h, pixel_format := none,
        color_model := some ColorModel.RGB,
        channel_datatype := some ChannelDatatype.U8 } ∧
    decode_image_format "rgba8" (w, h) = .ok
      { width := w, height := h, pixel_format := none,
        color_model := some ColorModel.RGBA,
        channel_datatype := some ChannelDatatype.U8 } ∧
    decode_image_format "rgb16" (w, h) = .ok
      { width := w, height := h, pixel_format := none,
        color_model := some ColorModel.RGB,
        channel_datatype := some ChannelDatatype.U16 } ∧
    decode_image_format "rgba16" (w, h) = .ok
      { width := w, height := h, pixel_format := none,
        color_model := some ColorModel.RGBA,
        channel_datatype := some ChannelDatatype.U16 } ∧
    decode_image_format "bgr8" (w, h) = .ok
      { width := w, height := h, pixel_format := none,
        color_model := some ColorModel.BGR,
        channel_datatype := some ChannelDatatype.U8 } ∧
    decode_image_format "bgra8" (w, h) = .ok
      { width := w, height := h, pixel_format := none,
        color_model := some ColorModel.BGRA,
        channel_datatype := some ChannelDatatype.U8 } ∧
    decode_image_format "bgr16" (w, h) = .ok
      { width := w, height := h, pixel_format := none,
        color_model := some ColorModel.BGR,
        channel_datatype := some ChannelDatatype.U16 } ∧
    decode_image_format "bgra16" (w, h) = .ok
      { width := w, height := h, pixel_format := none,
        color_model := some ColorModel.BGRA,
        channel_datatype := some ChannelDatatype.U16 } ∧
    decode_image_format "mono8" (w, h) = .ok
      { width := w, height := h, pixel_format := none,
        color_model := some ColorModel.L,
        channel_datatype := some ChannelDatatype.U8 } ∧
    decode_image_format "mono16" (w, h) = .ok
      { width := w, height := h, pixel_format := none,
        color_model := some ColorModel.L,
        channel_datatype := some ChannelDatatype.U16 } ∧
    decode_image_format "yuyv" (w, h) = .ok
      { width := w, height := h, pixel_format := some PixelFormat.YUY2,
        color_model := none, channel_datatype := none } ∧
    decode_image_format "yuv422_yuy2" (w, h) = .ok
      { width := w, height := h, pixel_format := some PixelFormat.YUY2,
        color_model := none, channel_datatype := none } ∧
    decode_image_format "nv12" (w, h) = .ok
      { width := w, height := h, pixel_format := some PixelFormat.NV12,
        color_model := none, channel_datatype := none } ∧
    decode_image_format "8UC1" (w, h) = .ok
      { width := w, height := h, pixel_format := none, color_model := none,
        channel_datatype := some ChannelDatatype.U8 } ∧
    decode_image_format "8SC1" (w, h) = .ok
      { width := w, height := h, pixel_format := none, color_model := none,
        channel_datatype := some ChannelDatatype.I8 } ∧
    decode_image_format "16UC1" (w, h) = .ok
      { width := w, height := h, pixel_format := none, color_model := none,
        channel_datatype := some ChannelDatatype.U16 } ∧
    decode_image_format "16SC1" (w, h) = .ok
      { width := w, height := h, pixel_format := none, color_model := none,
        channel_datatype := some ChannelDatatype.I16 } ∧
    decode_image_format "32SC1" (w, h) = .ok
      { width := w, height := h, pixel_format := none, color_model := none,
        channel_datatype := some ChannelDatatype.I32 } ∧
    decode_image_format "32FC1" (w, h) = .ok
      { width := w, height := h, pixel_format := none, color_model := none,
        channel_datatype := some ChannelDatatype.F32 } ∧
    decode_image_format "rgb8" (4, 2) = .ok
      { width := 4, height := 2, pixel_format := none,
        color_model := some ColorModel.RGB,
        channel_datatype := some ChannelDatatype.U8 } :=
  ⟨rfl, rfl, rfl, rfl, rfl, rfl, rfl, rfl, rfl, rfl, rfl, rfl, rfl, rfl, rfl,
   rfl, rfl, rfl, rfl, rfl⟩

/-- Helper: the resolver either succeeds on an encoding of the fixed table or
fails with the error carrying the encoding on anything else. -/
theorem decode_image_format_cases (enc : String) (d : Nat × Nat) :
    (enc ∈ supportedEncodings ∧ (decode_image_format enc d).isOk = true) ∨
    (enc ∉ supportedEncodings ∧
      decode_image_format enc d = .error { encoding := enc }) := by
  unfold decode_image_format
  split
  case _ => exact Or.inl ⟨by decide, rfl⟩
  case _ => exact Or.inl ⟨by decide, rfl⟩
  case _ => exact Or.inl ⟨by decide, rfl⟩
  case _ => exact Or.inl ⟨by decide, rfl⟩
  case _ => exact Or.inl ⟨by decide, rfl⟩
  case _ => exact Or.inl ⟨by decide, rfl⟩
  case _ => exact Or.inl ⟨by decide, rfl⟩
  case _ => exact Or.inl ⟨by decide, rfl⟩
  case _ => exact Or.inl ⟨by decide, rfl⟩
  case _ => exact Or.inl ⟨by decide, rfl⟩
  case _ => exact Or.inl ⟨by decide, rfl⟩
  case _ => exact Or.inl ⟨by decide, rfl⟩
  case _ => exact Or.inl ⟨by decide, rfl⟩
  case _ => exact Or.inl ⟨by decide, rfl⟩
  case _ => exact Or.inl ⟨by decide, rfl⟩
  case _ => exact Or.inl ⟨by decide, rfl⟩
  case _ => exact Or.inl ⟨by decide, rfl⟩
  case _ => exact Or.inl ⟨by decide, rfl⟩
  case _ => exact Or.inl ⟨by decide, rfl⟩
  case _ h1 h2 h3 h4 h5 h6 h7 h8 h9 h10 h11 h12 h13 h14 h15 h16 h17 h18 h19 =>
    refine Or.inr ⟨?_, rfl⟩
    intro hmem
    simp only [supportedEncodings, List.mem_cons, List.not_mem_nil,
      or_false] at hmem
    rcases hmem with rfl | rfl | rfl | rfl | rfl | rfl | rfl | rfl | rfl |
      rfl | rfl | rfl | rfl | rfl | rfl | rfl | rfl | rfl | rfl
    · exact h1 rfl
    · exact h2 rfl
    · exact h3 rfl
    · exact h4 rfl
    · exact h5 rfl
    · exact h6 rfl
    · exact h7 rfl
    · exact h8 rfl
    · exact h9 rfl
    · exact h10 rfl
    · exact h11 rfl
    · exact h12 rfl
    · exact h13 rfl
    · exact h14 rfl
    · exact h15 rfl
    · exact h16 rfl
    · exact h17 rfl
    · exact h18 rfl
    · exact h19 rfl

/-- C2: the format resolver fails exactly on the encoding strings outside the
fixed §4.3 vocabulary, and when it fails the error carries that encoding
string. -/
theorem C2_resolve_iff_supported (enc : String) (w h : Nat) :
    ((decode_image_format enc (w, h)).isOk = true ↔ enc ∈ supportedEncodings) ∧
    (enc ∉ supportedEncodings →
      decode_image_format enc (w, h) = .error { encoding := enc }) := by
  rcases decode_image_format_cases enc (w, h) with ⟨hmem, hok⟩ | ⟨hmem, herr⟩
  · exact ⟨⟨fun _ => hmem, fun _ => hok⟩, fun hn => absurd hmem hn⟩
  · refine ⟨⟨fun hk => ?_, fun hm => absurd hm hmem⟩, fun _ => herr⟩
    rw [herr] at hk
    simp [Except.isOk, Except.toBool] at hk

/-- Witness for C2 at the concrete unsupported encoding `"rgb32"`. -/
theorem C2_resolve_iff_supported_witness :
    decode_image_format "rgb32" (1, 1) = .error { encoding := "rgb32" } :=
  (C2_resolve_iff_supported "rgb32" 1 1).2 (by decide)

/-- Helper: shape of a successful `append` — the message decodes, its format
resolves, one value is pushed to every collection in lockstep, the depth flag
is overwritten, and one `"timestamp"` time cell is registered. -/
theorem append_ok_spec (p : ImageMessageParser) (ctx : ParserContext)
    (msg : RawMessage) (p' : ImageMessageParser) (ctx' : ParserContext)
    (h : p.append ctx msg = (.ok (), p', ctx')) :
    ∃ m f, msg = RawMessage.wellFormed m ∧
      decode_image_format m.encoding (m.width, m.height) = .ok f ∧
      p' = { blobs := p.blobs ++ [m.data]
             image_formats := p.image_formats ++ [f]
             height := p.height ++ [m.height]
             width := p.width ++ [m.width]
             encoding := p.encoding ++ [m.encoding]
             is_bigendian := p.is_bigendian ++ [if m.is_bigendian then 1 else 0]
             step := p.step ++ [m.step]
             is_depth_image := f.color_model.isNone } ∧
      ctx' = ctx.add_time_cell "timestamp" m.stamp_nanos := by
  cases msg with
  | malformed =>
    simp only [ImageMessageParser.append, try_decode_message] at h
    injection h with h1 h2
    injection h1
  | wellFormed m =>
    simp only [ImageMessageParser.append, try_decode_message] at h
    cases hdec : decode_image_format m.encoding (m.width, m.height) with
    | error e =>
      rw [hdec] at h
      injection h with h1 h2
      injection h1
    | ok f =>
      rw [hdec] at h
      simp only [Prod.mk.injEq] at h
      exact ⟨m, f, rfl, hdec, h.2.1.symm, h.2.2.symm⟩

/-- Helper: a failing `append` leaves the parser state untouched. -/
theorem append_error_state (p : ImageMessageParser) (ctx : ParserContext)
    (msg : RawMessage) (e : AppendError) (p' : ImageMessageParser)
    (ctx' : ParserContext) (h : p.append ctx msg = (.error e, p', ctx')) :
    p' = p := by
  cases msg with
  | malformed =>
    simp only [ImageMessageParser.append, try_decode_message,
      Prod.mk.injEq] at h
    exact h.2.1.symm
  | wellFormed m =>
    simp only [ImageMessageParser.append, try_decode_message] at h
    cases hdec : decode_image_format m.encoding (m.width, m.height) with
    | error er =>
      rw [hdec] at h
      simp only [Prod.mk.injEq] at h
      exact h.2.1.symm
    | ok f =>
      rw [hdec] at h
      injection h with h1 h2
      injection h1

/-- Helper: feeding `msgs ++ [m]` is feeding `msgs`, then appending `m` to
the resulting state (provided the prefix succeeded). -/
theorem appendAll_concat (msgs : List RawMessage) (p : ImageMessageParser)
    (ctx : ParserContext) (m : RawMessage) :
    appendAll p ctx (msgs ++ [m]) =
      match appendAll p ctx msgs with
      | (.ok _, p1, ctx1) => p1.append ctx1 m
      | (.error e, p1, ctx1) => (.error e, p1, ctx1) := by
  induction msgs generalizing p ctx with
  | nil =>
    simp only [List.nil_append, appendAll]
    rcases hstep : p.append ctx m with ⟨res, p1, ctx1⟩
    cases res with
    | ok u => cases u; simp [appendAll]
    | error e => simp [appendAll]
  | cons m0 rest ih =>
    simp only [List.cons_append, appendAll]
    rcases hstep : p.append ctx m0 with ⟨res, p1, ctx1⟩
    cases res with
    | ok u => exact ih p1 ctx1
    | error e => rfl

/-- Helper: a successful run over `msgs` preserves and extends the length
invariant by `msgs.length` on all seven collections and on the time cells. -/
theorem appendAll_ok_invariant (msgs : List RawMessage)
    (p : ImageMessageParser) (ctx : ParserContext) (p' : ImageMessageParser)
    (ctx' : ParserContext) (n : Nat) (hl : lengthsEq p n) (hc : ctxCells ctx n)
    (h : appendAll p ctx msgs = (.ok (), p', ctx')) :
    lengthsEq p' (n + msgs.length) ∧ ctxCells ctx' (n + msgs.length) := by
  induction msgs generalizing p ctx n with
  | nil =>
    simp only [appendAll, Prod.mk.injEq] at h
    obtain ⟨-, hp, hctx⟩ := h
    subst hp
    subst hctx
    simpa using ⟨hl, hc⟩
  | cons m0 rest ih =>
    simp only [appendAll] at h
    rcases hstep : p.append ctx m0 with ⟨res, p1, ctx1⟩
    rw [hstep] at h
    cases res with
    | error e =>
      injection h with h1 h2
      injection h1
    | ok u =>
      cases u
      obtain ⟨m, f, -, -, hp1, hctx1⟩ := append_ok_spec p ctx m0 p1 ctx1 hstep
      have hl1 : lengthsEq p1 (n + 1) := by
        obtain ⟨h1, h2, h3, h4, h5, h6, h7⟩ := hl
        subst hp1
        exact ⟨by simp [h1], by simp [h2], by simp [h3], by simp [h4],
          by simp [h5], by simp [h6], by simp [h7]⟩
      have hc1 : ctxCells ctx1 (n + 1) := by
        obtain ⟨hclen, hcall⟩ := hc
        subst hctx1
        refine ⟨by simp [ParserContext.add_time_cell, hclen], ?_⟩
        intro c hcmem
        simp only [ParserContext.add_time_cell, List.mem_append,
          List.mem_singleton] at hcmem
        rcases hcmem with hcmem | rfl
        · exact hcall c hcmem
        · rfl
      have := ih p1 ctx1 (n + 1) hl1 hc1 h
      simpa [Nat.add_assoc, Nat.add_comm, Nat.add_left_comm] using this

/-- Helper: a successful run appends exactly the decoded pixel payloads, in
order, to the blob collection. -/
theorem appendAll_ok_blobs (msgs : List RawMessage) (p : ImageMessageParser)
    (ctx : ParserContext) (p' : ImageMessageParser) (ctx' : ParserContext)
    (h : appendAll p ctx msgs = (.ok (), p', ctx')) :
    p'.blobs = p.blobs ++ msgs.map rawData := by
  induction msgs generalizing p ctx with
  | nil =>
    simp only [appendAll, Prod.mk.injEq] at h
    obtain ⟨-, hp, -⟩ := h
    subst hp
    simp
  | cons m0 rest ih =>
    simp only [appendAll] at h
    rcases hstep : p.append ctx m0 with ⟨res, p1, ctx1⟩
    rw [hstep] at h
    cases res with
    | error e =>
      injection h with h1 h2
      injection h1
    | ok u =>
      cases u
      obtain ⟨m, f, hmsg, -, hp1, -⟩ := append_ok_spec p ctx m0 p1 ctx1 hstep
      subst hmsg
      have := ih p1 ctx1 h
      rw [this, hp1]
      simp [rawData]

/-- Helper: the timeline sanity check passes when every cell belongs to one
timeline and the cell count equals the row count. -/
theorem timelineLenOk_of_uniform (cells : List (String × Int)) (n : Nat)
    (hlen : cells.length = n) (hall : ∀ c ∈ cells, c.1 = "timestamp") :
    timelineLenOk cells n = true := by
  unfold timelineLenOk
  rw [List.all_eq_true]
  intro name hname
  have hts : name = "timestamp" := by
    unfold timelineNames at hname
    rw [List.mem_dedup] at hname
    obtain ⟨c, hc, rfl⟩ := List.mem_map.mp hname
    exact hall c hc
  subst hts
  have hfilter : (cells.filter fun c => c.1 == "timestamp") = cells := by
    rw [List.filter_eq_self]
    intro c hc
    exact beq_iff_eq.mpr (hall c hc)
  rw [hfilter, hlen]
  simp

/-- Helper: shape of a successfully constructed image chunk. -/
theorem mk_image_chunk_ok (ep : String) (tls : List (String × Int))
    (arch : ImageArchetype) (bufs : List (List Nat))
    (fmts : List ImageFormat) (n : Nat) (hb : bufs.length = n)
    (hf : fmts.length = n) (htl : timelineLenOk tls n = true) :
    mk_image_chunk ep tls arch bufs fmts = .ok
      { entity_path := ep, timelines := tls, archetype := arch,
        buffers := bufs, formats := fmts } := by
  unfold mk_image_chunk
  rw [if_pos]
  constructor
  · rw [hb, hf]
  · rw [hb]
    exact htl

/-- Helper: shape of a successfully constructed metadata chunk. -/
theorem mk_metadata_chunk_ok (ep : String) (tls : List (String × Int))
    (hs ws : List Nat) (encs : List String) (bes ss : List Nat) (n : Nat)
    (hh : hs.length = n) (hw : ws.length = n) (he : encs.length = n)
    (hbe : bes.length = n) (hss : ss.length = n)
    (htl : timelineLenOk tls n = true) :
    mk_metadata_chunk ep tls hs ws encs bes ss = .ok
      { entity_path := ep, timelines := tls,
        height := { component := "height", archetype := ARCHETYPE_NAME, values := hs },
        width := { component := "width", archetype := ARCHETYPE_NAME, values := ws },
        encoding := { component := "encoding", archetype := ARCHETYPE_NAME, values := encs },
        is_bigendian := { component := "is_bigendian", archetype := ARCHETYPE_NAME, values := bes },
        step := { component := "step", archetype := ARCHETYPE_NAME, values := ss } } := by
  unfold mk_metadata_chunk
  rw [if_pos]
  constructor
  · exact ⟨by rw [hw, hh], by rw [he, hh], by rw [hbe, hh], by rw [hss, hh]⟩
  · rw [hh]
    exact htl

/-- Helper: complete characterization of `finalize` under the length
invariant: it succeeds and returns exactly the two batches built from the
accumulated state. -/
theorem finalize_spec (p : ImageMessageParser) (ctx : ParserContext) (n : Nat)
    (hl : lengthsEq p n) (hc : ctxCells ctx n) :
    p.finalize ctx = .ok
      ({ entity_path := ctx.entity_path
         timelines := ctx.time_cells
         archetype := if p.is_depth_image then ImageArchetype.depth
                      else ImageArchetype.color
         buffers := p.blobs
         formats := p.image_formats },
       { entity_path := ctx.entity_path
         timelines := ctx.time_cells
         height := { component := "height", archetype := ARCHETYPE_NAME, values := p.height }
         width := { component := "width", archetype := ARCHETYPE_NAME, values := p.width }
         encoding := { component := "encoding", archetype := ARCHETYPE_NAME, values := p.encoding }
         is_bigendian := { component := "is_bigendian", archetype := ARCHETYPE_NAME, values := p.is_bigendian }
         step := { component := "step", archetype := ARCHETYPE_NAME, values := p.step } }) := by
  obtain ⟨hb, hf, hh, hw, he, hbe, hs⟩ := hl
  obtain ⟨hclen, hcall⟩ := hc
  have htl : timelineLenOk ctx.time_cells n = true :=
    timelineLenOk_of_uniform ctx.time_cells n hclen hcall
  unfold ImageMessageParser.finalize
  rw [show ctx.build_timelines = ctx.time_cells from rfl]
  rw [mk_image_chunk_ok ctx.entity_path ctx.time_cells _ p.blobs
    p.image_formats n hb hf htl]
  rw [mk_metadata_chunk_ok ctx.entity_path ctx.time_cells p.height p.width
    p.encoding p.is_bigendian p.step n hh hw he hbe hs htl]

/-- Helper: inversion for a successful image-chunk construction. -/
theorem mk_image_chunk_inv (ep : String) (tls : List (String × Int))
    (arch : ImageArchetype) (bufs : List (List Nat))
    (fmts : List ImageFormat) (c : ImageChunk)
    (h : mk_image_chunk ep tls arch bufs fmts = .ok c) :
    c = { entity_path := ep, timelines := tls, archetype := arch,
          buffers := bufs, formats := fmts } := by
  unfold mk_image_chunk at h
  split at h
  · injection h with h1
    exact h1.symm
  · injection h

/-- Helper: inversion for a successful metadata-chunk construction. -/
theorem mk_metadata_chunk_inv (ep : String) (tls : List (String × Int))
    (hs ws : List Nat) (encs : List String) (bes ss : List Nat)
    (c : MetadataChunk) (h : mk_metadata_chunk ep tls hs ws encs bes ss = .ok c) :
    c = { entity_path := ep, timelines := tls,
          height := { component := "height", archetype := ARCHETYPE_NAME, values := hs },
          width := { component := "width", archetype := ARCHETYPE_NAME, values := ws },
          encoding := { component := "encoding", archetype := ARCHETYPE_NAME, values := encs },
          is_bigendian := { component := "is_bigendian", archetype := ARCHETYPE_NAME, values := bes },
          step := { component := "step", archetype := ARCHETYPE_NAME, values := ss } } := by
  unfold mk_metadata_chunk at h
  split at h
  · injection h with h1
    exact h1.symm
  · injection h

/-- Helper: inversion for a successful `finalize` — the two returned batches
are exactly those built from the accumulated state. -/
theorem finalize_ok_inv (p : ImageMessageParser) (ctx : ParserContext)
    (ic : ImageChunk) (mc : MetadataChunk)
    (h : p.finalize ctx = .ok (ic, mc)) :
    ic = { entity_path := ctx.entity_path
           timelines := ctx.time_cells
           archetype := if p.is_depth_image then ImageArchetype.depth
                        else ImageArchetype.color
           buffers := p.blobs
           formats := p.image_formats } ∧
    mc = { entity_path := ctx.entity_path
           timelines := ctx.time_cells
           height := { component := "height", archetype := ARCHETYPE_NAME, values := p.height }
           width := { component := "width", archetype := ARCHETYPE_NAME, values := p.width }
           encoding := { component := "encoding", archetype := ARCHETYPE_NAME, values := p.encoding }
           is_bigendian := { component := "is_bigendian", archetype := ARCHETYPE_NAME, values := p.is_bigendian }
           step := { component := "step", archetype := ARCHETYPE_NAME, values := p.step } } := by
  unfold ImageMessageParser.finalize at h
  cases himg : mk_image_chunk ctx.entity_path ctx.build_timelines
      (if p.is_depth_image then ImageArchetype.depth else ImageArchetype.color)
      p.blobs p.image_formats with
  | error e =>
    rw [himg] at h
    injection h
  | ok c1 =>
    rw [himg] at h
    cases hmeta : mk_metadata_chunk ctx.entity_path ctx.build_timelines
        p.height p.width p.encoding p.is_bigendian p.step with
    | error e =>
      rw [hmeta] at h
      injection h
    | ok c2 =>
      rw [hmeta] at h
      injection h with h1
      injection h1 with hic hmc
      subst hic
      subst hmc
      exact ⟨mk_image_chunk_inv _ _ _ _ _ _ himg,
        mk_metadata_chunk_inv _ _ _ _ _ _ _ _ hmeta⟩

/-- C3: for every non-empty sequence of successfully appended frames,
finalize emits the image batch under the depth-image archetype if and only
if the last accepted frame's resolved format has no color model — earlier
frames' classifications are overwritten (last-wins). -/
theorem C3_last_wins (msgs : List RawMessage) (nh : Nat) (ctx0 : ParserContext)
    (p' : ImageMessageParser) (ctx' : ParserContext)
    (h : appendAll (ImageMessageParser.new nh) ctx0 msgs = (.ok (), p', ctx'))
    (m : ImageMsg) (hm : msgs.getLast? = some (RawMessage.wellFormed m))
    (f : ImageFormat)
    (hf : decode_image_format m.encoding (m.width, m.height) = .ok f)
    (ic : ImageChunk) (mc : MetadataChunk)
    (hfin : p'.finalize ctx' = .ok (ic, mc)) :
    ic.archetype = ImageArchetype.depth ↔ f.color_model = none := by
  have hsplit : msgs.dropLast ++ [RawMessage.wellFormed m] = msgs :=
    List.dropLast_append_getLast? _ (Option.mem_def.mpr hm)
  rw [← hsplit, appendAll_concat] at h
  rcases hpre : appendAll (ImageMessageParser.new nh) ctx0 msgs.dropLast
    with ⟨res, p1, ctx1⟩
  rw [hpre] at h
  cases res with
  | error e =>
    injection h with h1 h2
    injection h1
  | ok u =>
    cases u
    obtain ⟨m2, f2, hmsg, hdec2, hp', -⟩ := append_ok_spec p1 ctx1 _ p' ctx' h
    injection hmsg with hmm
    subst hmm
    rw [hf] at hdec2
    injection hdec2 with hff
    subst hff
    obtain ⟨hic, -⟩ := finalize_ok_inv p' ctx' ic mc hfin
    rw [hic, hp']
    cases hcm : f.color_model with
    | none => simp [hcm]
    | some cmv => simp [hcm]

/-- Witness for C3: a color frame followed by a depth frame finalizes as a
depth batch. -/
theorem C3_last_wins_witness :
    exIcCD.archetype = ImageArchetype.depth ↔
      (ImageFormat.depth (4, 2) ChannelDatatype.F32).color_model = none :=
  C3_last_wins exMsgsCD 0 (ParserContext.new "cam") exRunCD.2.1 exRunCD.2.2
    (by rfl) exDepthMsg (by rfl) (ImageFormat.depth (4, 2) ChannelDatatype.F32)
    (by rfl) exIcCD exMcCD (by rfl)

/-- C4: after `N` successfully appended frames all seven collections and
builders have length exactly `N`, and finalize succeeds with exactly `N`
rows in both output batches. -/
theorem C4_lockstep (msgs : List RawMessage) (nh : Nat) (ep : String)
    (p' : ImageMessageParser) (ctx' : ParserContext)
    (h : appendAll (ImageMessageParser.new nh) (ParserContext.new ep) msgs =
      (.ok (), p', ctx')) :
    lengthsEq p' msgs.length ∧
    ∃ ic mc, p'.finalize ctx' = .ok (ic, mc) ∧
      ic.num_rows = msgs.length ∧ mc.num_rows = msgs.length := by
  have h0l : lengthsEq (ImageMessageParser.new nh) 0 :=
    ⟨rfl, rfl, rfl, rfl, rfl, rfl, rfl⟩
  have h0c : ctxCells (ParserContext.new ep) 0 :=
    ⟨rfl, fun c hc => absurd hc (List.not_mem_nil c)⟩
  obtain ⟨hl, hc⟩ := appendAll_ok_invariant msgs _ _ _ _ 0 h0l h0c h
  rw [Nat.zero_add] at hl hc
  refine ⟨hl, ?_⟩
  refine ⟨_, _, finalize_spec p' ctx' msgs.length hl hc, ?_, ?_⟩
  · exact hl.1
  · exact hl.2.2.1

/-- Witness for C4: the two-frame run has all columns at length 2 and both
batches with 2 rows. -/
theorem C4_lockstep_witness :
    lengthsEq exRunCD.2.1 exMsgsCD.length ∧
    ∃ ic mc, exRunCD.2.1.finalize exRunCD.2.2 = .ok (ic, mc) ∧
      ic.num_rows = exMsgsCD.length ∧ mc.num_rows = exMsgsCD.length :=
  C4_lockstep exMsgsCD 0 "cam" exRunCD.2.1 exRunCD.2.2 (by rfl)

/-- C5: a failing `append` leaves the parser exactly as before the call: all
five column builders and the blob/format collections still hold the `k`
previously accumulated values. -/
theorem C5_append_failure_rollback (p : ImageMessageParser)
    (ctx : ParserContext) (msg : RawMessage) (e : AppendError)
    (p' : ImageMessageParser) (ctx' : ParserContext) (k : Nat)
    (hl : lengthsEq p k) (h : p.append ctx msg = (.error e, p', ctx')) :
    p' = p ∧ lengthsEq p' k := by
  have hp := append_error_state p ctx msg e p' ctx' h
  refine ⟨hp, ?_⟩
  rw [hp]
  exact hl

/-- Witness for C5: a decode failure on the third message leaves the state
accumulated from the first two messages intact (length 2 everywhere). -/
theorem C5_append_failure_rollback_witness :
    (exParser2.append exCtx2 RawMessage.malformed).2.1 = exParser2 ∧
    lengthsEq (exParser2.append exCtx2 RawMessage.malformed).2.1 2 :=
  C5_append_failure_rollback exParser2 exCtx2 RawMessage.malformed
    AppendError.decodeError
    ((exParser2.append exCtx2 RawMessage.malformed).2.1)
    ((exParser2.append exCtx2 RawMessage.malformed).2.2) 2
    ⟨rfl, rfl, rfl, rfl, rfl, rfl, rfl⟩ (by rfl)

/-- C6: the pixel blobs are handed into the image output batch unchanged:
row `i` of the finalized batch holds exactly the payload decoded from the
`i`-th input message, with the same size and byte content. -/
theorem C6_blob_ownership (msgs : List RawMessage) (nh : Nat) (ep : String)
    (p' : ImageMessageParser) (ctx' : ParserContext) (ic : ImageChunk)
    (mc : MetadataChunk)
    (h : appendAll (ImageMessageParser.new nh) (ParserContext.new ep) msgs =
      (.ok (), p', ctx'))
    (hfin : p'.finalize ctx' = .ok (ic, mc)) :
    ic.buffers = msgs.map rawData := by
  have hb := appendAll_ok_blobs msgs _ _ _ _ h
  obtain ⟨hic, -⟩ := finalize_ok_inv p' ctx' ic mc hfin
  rw [hic]
  simpa [ImageMessageParser.new] using hb

/-- Witness for C6: the two-frame run's image batch holds exactly the two
input payloads. -/
theorem C6_blob_ownership_witness : exIcCD.buffers = exMsgsCD.map rawData :=
  C6_blob_ownership exMsgsCD 0 "cam" exRunCD.2.1 exRunCD.2.2 exIcCD exMcCD
    (by rfl) (by rfl)

/-- C7: finalizing a freshly created parser with zero appended frames
succeeds and yields two output batches with zero rows. -/
theorem C7_finalize_empty (nh : Nat) (ep : String) :
    ∃ ic mc,
      (ImageMessageParser.new nh).finalize (ParserContext.new ep) =
        .ok (ic, mc) ∧
      ic.num_rows = 0 ∧ mc.num_rows = 0 :=
  ⟨_, _, finalize_spec (ImageMessageParser.new nh) (ParserContext.new ep) 0
    ⟨rfl, rfl, rfl, rfl, rfl, rfl, rfl⟩
    ⟨rfl, fun c hc => absurd hc (List.not_mem_nil c)⟩, rfl, rfl⟩

/-- C8: every successful finalize tags each of the five metadata columns
with the fixed archetype name `sensor_msgs.msg.Image`. -/
theorem C8_metadata_archetype_tag (p : ImageMessageParser)
    (ctx : ParserContext) (ic : ImageChunk) (mc : MetadataChunk)
    (hfin : p.finalize ctx = .ok (ic, mc)) :
    mc.height.archetype = ARCHETYPE_NAME ∧
    mc.width.archetype = ARCHETYPE_NAME ∧
    mc.encoding.archetype = ARCHETYPE_NAME ∧
    mc.is_bigendian.archetype = ARCHETYPE_NAME ∧
    mc.step.archetype = ARCHETYPE_NAME := by
  obtain ⟨-, hmc⟩ := finalize_ok_inv p ctx ic mc hfin
  rw [hmc]
  exact ⟨rfl, rfl, rfl, rfl, rfl⟩

/-- Witness for C8 on the two-frame run's metadata batch. -/
theorem C8_metadata_archetype_tag_witness :
    exMcCD.height.archetype = ARCHETYPE_NAME ∧
    exMcCD.width.archetype = ARCHETYPE_NAME ∧
    exMcCD.encoding.archetype = ARCHETYPE_NAME ∧
    exMcCD.is_bigendian.archetype = ARCHETYPE_NAME ∧
    exMcCD.step.archetype = ARCHETYPE_NAME :=
  C8_metadata_archetype_tag exRunCD.2.1 exRunCD.2.2 exIcCD exMcCD (by rfl)

/-- C9: the sensor timestamp is registered via the context before format
resolution, so an `append` failing on an unsupported encoding has already
added the frame's time cell — which is not rolled back — while the parser
state is untouched. -/
theorem C9_time_cell_before_resolve (p : ImageMessageParser)
    (ctx : ParserContext) (m : ImageMsg) (err : UnsupportedFormatError)
    (p' : ImageMessageParser) (ctx' : ParserContext)
    (h : p.append ctx (RawMessage.wellFormed m) =
      (.error (AppendError.unsupportedFormat err), p', ctx')) :
    ctx' = ctx.add_time_cell "timestamp" m.stamp_nanos ∧ p' = p := by
  simp only [ImageMessageParser.append, try_decode_message] at h
  cases hdec : decode_image_format m.encoding (m.width, m.height) with
  | ok f =>
    rw [hdec] at h
    injection h with h1 h2
    injection h1
  | error er =>
    rw [hdec] at h
    simp only [Prod.mk.injEq] at h
    exact ⟨h.2.2.symm, h.2.1.symm⟩

/-- Witness for C9: an unsupported-encoding frame on a fresh parser leaves
one time cell behind and the parser untouched. -/
theorem C9_time_cell_before_resolve_witness :
    ((ImageMessageParser.new 0).append (ParserContext.new "cam")
        (RawMessage.wellFormed exBadMsg)).2.2 =
      (ParserContext.new "cam").add_time_cell "timestamp"
        exBadMsg.stamp_nanos ∧
    ((ImageMessageParser.new 0).append (ParserContext.new "cam")
        (RawMessage.wellFormed exBadMsg)).2.1 = ImageMessageParser.new 0 :=
  C9_time_cell_before_resolve (ImageMessageParser.new 0)
    (ParserContext.new "cam") exBadMsg { encoding := "weird" }
    ((ImageMessageParser.new 0).append (ParserContext.new "cam")
      (RawMessage.wellFormed exBadMsg)).2.1
    ((ImageMessageParser.new 0).append (ParserContext.new "cam")
      (RawMessage.wellFormed exBadMsg)).2.2 (by rfl)

/-- C10: a newly created parser starts with `is_depth_image = false`, so a
channel finalized with zero accepted frames emits its empty image batch
under the color-image archetype, never as depth. -/
theorem C10_fresh_parser_color (nh : Nat) (ep : String) :
    (ImageMessageParser.new nh).is_depth_image = false ∧
    ∃ ic mc,
      (ImageMessageParser.new nh).finalize (ParserContext.new ep) =
        .ok (ic, mc) ∧
      ic.archetype = ImageArchetype.color :=
  ⟨rfl, _, _, finalize_spec (ImageMessageParser.new nh) (ParserContext.new ep) 0
    ⟨rfl, rfl, rfl, rfl, rfl, rfl, rfl⟩
    ⟨rfl, fun c hc => absurd hc (List.not_mem_nil c)⟩, rfl⟩

end RerunImage
